import Mathlib

/-!
Verification development for the connectivity layer of a prediction-markets
trading client: a token-bucket rate limiter, a retrying REST request engine,
and a WebSocket client with subscription management and reconnect logic.

The definitions below are shallow embeddings of the Python classes in
`src/prediction_markets/base/rest_client.py`,
`src/prediction_markets/common/rate_limiter.py` and
`src/prediction_markets/base/websocket_client.py`.  Time is passed in
explicitly (the elapsed value read from the monotonic clock at each call),
token counts are rationals, and Python exceptions are modelled with
`Option`/explicit result constructors.  Division by zero (a Python
`ZeroDivisionError`) is modelled as `none`.
-/

namespace PredMkts

/-! ## Rate limiters -/

/-- State of `RateLimiter` (rest_client.py): fields `rate`, `interval`,
`tokens`.  The `last_update` timestamp is replaced by passing the elapsed
time into each step. -/
structure RLState where
  rate : ℚ
  interval : ℚ
  tokens : ℚ
  deriving DecidableEq, Repr

/-- `RateLimiter.__init__(rate, interval)`: stores the arguments and starts
with a full bucket (`tokens = float(rate)`); the source performs no
validation of `rate` or `interval`. -/
def RateLimiter.init (rate : ℚ) (interval : ℚ) : RLState :=
  { rate := rate, interval := interval, tokens := rate }

/-- One call of `RateLimiter.acquire()` given the elapsed time since
`last_update`.  Refills `min(rate, tokens + elapsed * (rate / interval))`;
if fewer than one token is available it sleeps and sets the count to zero,
otherwise it consumes one token.  The two Python divisions raise
`ZeroDivisionError` when `interval = 0` (refill) or `rate = 0` (wait-time
computation); these paths return `none`. -/
def RateLimiter.acquireStep (s : RLState) (elapsed : ℚ) : Option RLState :=
  if s.interval = 0 then none
  else if min s.rate (s.tokens + elapsed * (s.rate / s.interval)) < 1 then
    if s.rate = 0 then none
    else some { s with tokens := 0 }
  else
    some { s with
      tokens := min s.rate (s.tokens + elapsed * (s.rate / s.interval)) - 1 }

/-- Run a sequence of `RateLimiter.acquire()` calls, each with its own
elapsed time. -/
def runRL : RLState → List ℚ → Option RLState
  | s, [] => some s
  | s, e :: es => (RateLimiter.acquireStep s e).bind (fun s1 => runRL s1 es)

/-- The token-count invariant claimed for the limiter: the stored count
stays between zero and the capacity (`rate` doubles as the capacity in
`RateLimiter`). -/
def RLinv (s : RLState) : Prop := 0 ≤ s.tokens ∧ s.tokens ≤ s.rate

/-- Python `int()` truncation toward zero on a rational. -/
def ratTrunc (q : ℚ) : ℤ := if 0 ≤ q then ⌊q⌋ else ⌈q⌉

/-- State of `TokenBucketRateLimiter` (rate_limiter.py): fields `rate`,
`burst`, `tokens`; `last_update` is again replaced by explicit elapsed
times. -/
structure TBState where
  rate : ℚ
  burst : ℚ
  tokens : ℚ
  deriving DecidableEq, Repr

/-- `TokenBucketRateLimiter.__init__(rate, burst)`: `self.burst = burst or
int(rate)` (so `None` or `0` fall back to `int(rate)`), `tokens =
float(burst)`; no validation of `rate`. -/
def TokenBucketRateLimiter.init (rate : ℚ) (burst : Option ℤ) : TBState :=
  let b : ℤ :=
    match burst with
    | some v => if v = 0 then ratTrunc rate else v
    | none => ratTrunc rate
  { rate := rate, burst := (b : ℚ), tokens := (b : ℚ) }

/-- One iteration of the `while True` loop in
`TokenBucketRateLimiter.acquire(tokens)`: refill
`min(burst, tokens + elapsed * rate)`; if at least `n` tokens are available
consume them and return, otherwise compute the wait time
`(n - tokens) / rate` (a `ZeroDivisionError`, i.e. `none`, when
`rate = 0`) and sleep, keeping the refilled count. -/
def TokenBucketRateLimiter.acquireIter (s : TBState) (elapsed : ℚ) (n : ℕ) :
    Option TBState :=
  if (n : ℚ) ≤ min s.burst (s.tokens + elapsed * s.rate) then
    some { s with tokens := min s.burst (s.tokens + elapsed * s.rate) - n }
  else if s.rate = 0 then none
  else some { s with tokens := min s.burst (s.tokens + elapsed * s.rate) }

/-- `TokenBucketRateLimiter.try_acquire(tokens)`: refill, then consume `n`
tokens if available, returning whether the acquisition succeeded. -/
def TokenBucketRateLimiter.tryAcquire (s : TBState) (elapsed : ℚ) (n : ℕ) :
    Bool × TBState :=
  if (n : ℚ) ≤ min s.burst (s.tokens + elapsed * s.rate) then
    (true, { s with tokens := min s.burst (s.tokens + elapsed * s.rate) - n })
  else (false, { s with tokens := min s.burst (s.tokens + elapsed * s.rate) })

/-- One observable step against a `TokenBucketRateLimiter`: either one
iteration of the `acquire` wait loop or a `try_acquire` call. -/
inductive TBOp where
  | acq (elapsed : ℚ) (n : ℕ)
  | tryA (elapsed : ℚ) (n : ℕ)
  deriving DecidableEq, Repr

/-- Elapsed monotonic-clock time carried by a step. -/
def TBOp.elapsed : TBOp → ℚ
  | .acq e _ => e
  | .tryA e _ => e

/-- Run a sequence of token-bucket operations. -/
def runTB : TBState → List TBOp → Option TBState
  | s, [] => some s
  | s, .acq e n :: ops =>
      (TokenBucketRateLimiter.acquireIter s e n).bind (fun s1 => runTB s1 ops)
  | s, .tryA e n :: ops => runTB (TokenBucketRateLimiter.tryAcquire s e n).2 ops

/-- Token-count invariant for the token bucket. -/
def TBinv (s : TBState) : Prop := 0 ≤ s.tokens ∧ s.tokens ≤ s.burst

/-! ## REST request/retry engine -/

/-- Classification produced by the collaborator hook `_parse_error(status,
data)`: an `AuthenticationError`, a `RateLimitError`, or any other typed
exchange error from the repository taxonomy. -/
inductive ErrCls where
  | auth
  | rateLimit
  | other
  deriving DecidableEq, Repr

/-- Outcome of one physical attempt inside `BaseRestClient.request`:
an HTTP response (with the classification `_parse_error` would give it when
`status ≥ 400`), an `aiohttp.ClientConnectorError`, an
`asyncio.TimeoutError`, a `RateLimitError` raised inside the attempt, or
any other exception. -/
inductive Attempt where
  | response (status : ℕ) (cls : ErrCls)
  | connError
  | timeoutErr
  | rateLimitExc
  | otherExc
  deriving DecidableEq, Repr

/-- Errors a `request()` call can surface, mirroring
`common/exceptions.py` plus the wrappers built inside `request()`:
`classified s c` is the value of `_parse_error(s, data)`;
`connectionFailed`/`requestTimeout` are the `ConnectionError`/`TimeoutError`
built in the handlers; `wrappedNetwork s c` is the
`NetworkError("Request failed: {e}")` built when a raised classified error
is caught by the generic handler; `wrappedExc` wraps any other exception;
`rateLimitPassthrough` is a re-raised `RateLimitError`; `genericNetwork` is
the final `NetworkError("Request failed")`. -/
inductive ReqError where
  | classified (status : ℕ) (cls : ErrCls)
  | connectionFailed
  | requestTimeout
  | wrappedNetwork (status : ℕ) (cls : ErrCls)
  | wrappedExc
  | rateLimitPassthrough
  | genericNetwork
  deriving DecidableEq, Repr

/-- Effect of one loop iteration of `request()` on the control flow:
return successfully, raise out of the whole call, or remember `last_error`
and continue to the backoff. -/
inductive StepRes where
  | success (status : ℕ)
  | raiseNow (e : ReqError)
  | remember (e : ReqError)
  deriving DecidableEq, Repr

/-- One iteration of the retry loop body in `BaseRestClient.request`,
lines 252-300.  For a response with `status ≥ 400` the code computes
`error = _parse_error(...)` and executes `raise error` when
`isinstance(error, AuthenticationError) or status < 500`; that raise
happens inside the same `try` block, so it is intercepted by the `except`
chain: `except RateLimitError` re-raises it, while every other classified
error falls into `except Exception`, which stores
`NetworkError("Request failed: {e}")` as `last_error` and lets the loop
continue.  A 5xx error that is not raised is remembered as-is. -/
def attemptStep (a : Attempt) : StepRes :=
  match a with
  | .response s cls =>
      if s < 400 then .success s
      else
        if cls = .auth ∨ s < 500 then
          if cls = .rateLimit then .raiseNow (.classified s cls)
          else .remember (.wrappedNetwork s cls)
        else .remember (.classified s cls)
  | .connError => .remember .connectionFailed
  | .timeoutErr => .remember .requestTimeout
  | .rateLimitExc => .raiseNow .rateLimitPassthrough
  | .otherExc => .remember .wrappedExc

/-- Retry-relevant fields of `RestConfig`. -/
structure RestConfig where
  retryAttempts : ℕ
  retryDelay : ℚ
  retryDelayMax : ℚ
  retryMultiplier : ℚ
  deriving DecidableEq, Repr

/-- Backoff delay before the attempt after attempt number `attempt`
(0-indexed): `min(retry_delay * retry_multiplier ** attempt,
retry_delay_max)`. -/
def backoffDelay (cfg : RestConfig) (attempt : ℕ) : ℚ :=
  min (cfg.retryDelay * cfg.retryMultiplier ^ attempt) cfg.retryDelayMax

/-- Observable result of a whole `request()` call: how many physical
attempts ran, the backoff sleeps performed between attempts (in order),
and the returned status or raised error. -/
structure RunResult where
  attempts : ℕ
  sleeps : List ℚ
  outcome : Except ReqError ℕ
  deriving Repr

/-- The retry loop `for attempt in range(self.config.retry_attempts)` of
`BaseRestClient.request`, from attempt number `attempt` on, carrying the
current `last_error` and the sleeps performed so far; `fuel` is the number
of loop iterations still to run (`retry_attempts - attempt`), and
`outcomes i` is what physical attempt `i` produces.  After the loop the
code raises `last_error or NetworkError("Request failed")`. -/
def requestGo (cfg : RestConfig) (outcomes : ℕ → Attempt) :
    (fuel : ℕ) → (attempt : ℕ) → Option ReqError → List ℚ → RunResult
  | 0, attempt, lastError, sleeps =>
      ⟨attempt, sleeps, .error (lastError.getD .genericNetwork)⟩
  | fuel + 1, attempt, _lastError, sleeps =>
      match attemptStep (outcomes attempt) with
      | .success s => ⟨attempt + 1, sleeps, .ok s⟩
      | .raiseNow e => ⟨attempt + 1, sleeps, .error e⟩
      | .remember e =>
          let sleeps' :=
            if attempt < cfg.retryAttempts - 1 then
              sleeps ++ [backoffDelay cfg attempt]
            else sleeps
          requestGo cfg outcomes fuel (attempt + 1) (some e) sleeps'

/-- A full `request()` call (after signing), starting at attempt 0 with no
remembered error and `retry_attempts` loop iterations ahead. -/
def requestRun (cfg : RestConfig) (outcomes : ℕ → Attempt) : RunResult :=
  requestGo cfg outcomes cfg.retryAttempts 0 none []

/-- Transient attempt outcomes in the sense of the retry policy: HTTP 5xx,
connection failure, or timeout. -/
def isTransient : Attempt → Bool
  | .response s _ => 500 ≤ s
  | .connError => true
  | .timeoutErr => true
  | _ => false

/-- The error `request()` remembers as `last_error` for an attempt whose
step falls through to the backoff (matches the `remember` branches of
`attemptStep`). -/
def rememberedOf : Attempt → ReqError
  | .response s cls =>
      if cls = .auth ∨ s < 500 then .wrappedNetwork s cls else .classified s cls
  | .connError => .connectionFailed
  | .timeoutErr => .requestTimeout
  | .otherExc => .wrappedExc
  | .rateLimitExc => .genericNetwork

/-! ## WebSocket client -/

/-- `ConnectionState` enum of websocket_client.py. -/
inductive ConnState where
  | disconnected
  | connecting
  | connected
  | reconnecting
  | closed
  deriving DecidableEq, Repr

/-- A stored `Subscription`: channel, parameter mapping (as the list of
key-value pairs in dict insertion order), creation time, and the optional
per-subscription callback (identified abstractly by a number). -/
structure Subscription where
  channel : String
  params : List (String × String)
  subscribedAt : ℕ
  callback : Option ℕ
  deriving DecidableEq, Repr

/-- A decoded inbound message, abstracted to the two collaborator-hook
results the receive loop inspects: `_is_heartbeat_response` and
`_extract_channel_from_message` (where `none` is Python `None`). -/
structure InMessage where
  heartbeat : Bool
  channel : Option String
  deriving DecidableEq, Repr

/-- Mutable state of `BaseWebSocketClient`: connection state, whether
`_ws` is a live handle, the subscription registry `_subscriptions` (an
insertion-ordered association list keyed by subscription key), the
`_should_reconnect` flag, `_reconnect_count`, and the general message
queue. -/
structure WSState where
  connState : ConnState
  wsOpen : Bool
  subscriptions : List (String × Subscription)
  shouldReconnect : Bool
  reconnectCount : ℕ
  queue : List InMessage
  deriving DecidableEq, Repr

/-- `is_connected` property: state is CONNECTED and `_ws is not None`. -/
def wsIsConnected (s : WSState) : Bool :=
  s.connState == ConnState.connected && s.wsOpen

/-- Comparison used to sort parameter pairs: Python's `sorted` on the
tuples `(k, v)` compares them lexicographically. -/
def pairLe (p q : String × String) : Bool :=
  decide (toLex p ≤ toLex q)

/-- `BaseWebSocketClient._get_subscription_key(channel, params)`: the bare
channel when `params` is empty, otherwise
`f"{channel}?{param_str}"` where `param_str` joins the sorted `k=v` pairs
with `&`. -/
def subscriptionKey (channel : String) (params : List (String × String)) :
    String :=
  if params.isEmpty then channel
  else
    let sortedParams := params.mergeSort pairLe
    let paramStr :=
      String.intercalate "&" (sortedParams.map (fun kv => kv.1 ++ "=" ++ kv.2))
    channel ++ "?" ++ paramStr

/-- Result of a `subscribe()` call: stored and frame sent; duplicate-key
early return; `WebSocketDisconnectedError` raised; or
`WebSocketSubscriptionError` raised because the send failed. -/
inductive SubResult where
  | ok
  | alreadySubscribed
  | errDisconnected
  | errSubscription
  deriving DecidableEq, Repr

/-- Result record of a `subscribe()` call: outcome, post-call client
state, and the subscribe control frames actually sent (channel and
params). -/
structure SubOutcome where
  result : SubResult
  state : WSState
  sentFrames : List (String × List (String × String))
  deriving DecidableEq, Repr

/-- `BaseWebSocketClient.subscribe(channel, params, callback)` at time
`now`; `sendOk` says whether `self._ws.send(...)` succeeds.  Raises a
disconnected error when not connected; returns early when the computed key
is already registered; otherwise sends the subscribe frame and, only if
the send succeeded, stores the `Subscription`; a send failure raises a
`WebSocketSubscriptionError` and stores nothing. -/
def subscribe (s : WSState) (channel : String)
    (params : List (String × String)) (callback : Option ℕ) (now : ℕ)
    (sendOk : Bool) : SubOutcome :=
  if ¬ wsIsConnected s then ⟨.errDisconnected, s, []⟩
  else
    let key := subscriptionKey channel params
    if (s.subscriptions.lookup key).isSome then ⟨.alreadySubscribed, s, []⟩
    else if sendOk then
      ⟨.ok,
        { s with
          subscriptions :=
            s.subscriptions ++ [(key, ⟨channel, params, now, callback⟩)] },
        [(channel, params)]⟩
    else ⟨.errSubscription, s, []⟩

/-- Result of an `unsubscribe()` call: entry removed and frame sent;
no-op because not connected; no-op because not subscribed; or send failed
(logged only, nothing removed, nothing raised). -/
inductive UnsubResult where
  | ok
  | noopDisconnected
  | noopNotSubscribed
  | sendFailedLogged
  deriving DecidableEq, Repr

/-- `BaseWebSocketClient.unsubscribe(channel, params)`; `sendOk` says
whether `self._ws.send(...)` succeeds.  The `del
self._subscriptions[subscription_key]` statement executes after the send
inside the same `try`, so a send failure skips the deletion and is only
logged. -/
def unsubscribe (s : WSState) (channel : String)
    (params : List (String × String)) (sendOk : Bool) :
    UnsubResult × WSState :=
  if ¬ wsIsConnected s then (.noopDisconnected, s)
  else
    let key := subscriptionKey channel params
    if (s.subscriptions.lookup key).isNone then (.noopNotSubscribed, s)
    else if sendOk then
      (.ok,
        { s with
          subscriptions := s.subscriptions.filter (fun kv => kv.1 ≠ key) })
    else (.sendFailedLogged, s)

/-- What the receive loop does with one decoded message: skip a heartbeat
response, invoke a subscription callback, silently drop it (routing key
matches a subscription whose callback is `None`), or put it on the general
queue. -/
inductive RouteResult where
  | heartbeatSkipped
  | callbackInvoked (cb : ℕ)
  | discarded
  | enqueued
  deriving DecidableEq, Repr

/-- The per-message body of `BaseWebSocketClient._receive_loop`
(lines 272-286): heartbeat responses are skipped; else, when the extracted
channel is truthy (`channel and ...`) and present in `_subscriptions`, the
callback is awaited if the stored subscription has one — and nothing at
all happens if it does not; every other message is put on the general
queue. -/
def receiveStep (s : WSState) (m : InMessage) : RouteResult × WSState :=
  if m.heartbeat then (.heartbeatSkipped, s)
  else
    match m.channel with
    | some ch =>
        if ch ≠ "" then
          match s.subscriptions.lookup ch with
          | some sub =>
              match sub.callback with
              | some cb => (.callbackInvoked cb, s)
              | none => (.discarded, s)
          | none => (.enqueued, { s with queue := s.queue ++ [m] })
        else (.enqueued, { s with queue := s.queue ++ [m] })
    | none => (.enqueued, { s with queue := s.queue ++ [m] })

/-- `BaseWebSocketClient.disconnect()`: clears `_should_reconnect`, sets
the state to CLOSED, cancels the background tasks, closes and drops the
stream handle, and clears all subscriptions. -/
def disconnect (s : WSState) : WSState :=
  { s with
    shouldReconnect := false
    connState := .closed
    wsOpen := false
    subscriptions := [] }

/-- `BaseWebSocketClient._resubscribe_all()`: snapshot the stored
subscriptions, clear the registry, and re-subscribe each snapshot entry;
a `WebSocketSubscriptionError` from one entry is logged and does not stop
the others. -/
def resubscribeAll (s : WSState) (now : ℕ) (sendOk : Bool) : WSState :=
  let subs := s.subscriptions.map (fun kv => kv.2)
  let cleared := { s with subscriptions := ([] : List (String × Subscription)) }
  subs.foldl
    (fun st sub => (subscribe st sub.channel sub.params sub.callback now sendOk).state)
    cleared

/-- Result of a `connect()` call: whether a `WebSocketConnectionError` was
raised, and the client state afterwards. -/
structure ConnectOutcome where
  raised : Bool
  state : WSState
  deriving DecidableEq, Repr

/-- `BaseWebSocketClient.connect()`; `success` says whether opening the
stream succeeds within the timeout.  A no-op when already CONNECTED;
otherwise sets `_should_reconnect = True` and state CONNECTING, then on
success state CONNECTED, `_reconnect_count = 0`, starts the background
tasks and resubscribes everything; on failure sets state DISCONNECTED and
raises a `WebSocketConnectionError`. -/
def connectOp (s : WSState) (success : Bool) (now : ℕ) (sendOk : Bool) :
    ConnectOutcome :=
  if s.connState = .connected then ⟨false, s⟩
  else
    let s1 := { s with shouldReconnect := true, connState := ConnState.connecting }
    if success then
      ⟨false,
        resubscribeAll
          { s1 with
            connState := .connected
            reconnectCount := 0
            wsOpen := true } now sendOk⟩
    else ⟨true, { s1 with connState := .disconnected }⟩

/-- Reconnect-relevant fields of `WebSocketConfig`. -/
structure WSConfig where
  reconnectAttempts : ℕ
  reconnectDelay : ℚ
  reconnectDelayMax : ℚ
  reconnectMultiplier : ℚ
  deriving DecidableEq, Repr

/-- Observable outcome of `_reconnect()`: the client state it leaves
behind, how many times the fallback trigger was awaited, and whether any
exception escaped to the caller (the loop catches every
`WebSocketConnectionError` that `connect()` can raise, so this is always
`false`). -/
structure ReconnectOutcome where
  state : WSState
  fallbackCalls : ℕ
  raised : Bool
  deriving DecidableEq, Repr

/-- The `while self._reconnect_count < self.config.reconnect_attempts`
loop of `BaseWebSocketClient._reconnect`: compute the backoff delay,
increment `_reconnect_count`, sleep, then try `connect()` — returning on
success and continuing on `WebSocketConnectionError`.  When the loop
exhausts, set state DISCONNECTED and await the fallback trigger if one is
configured.  `connectResults i` says whether the connect try made after
incrementing the counter from `i` succeeds. -/
def reconnectGo (cfg : WSConfig) (hasFallback : Bool)
    (connectResults : ℕ → Bool) (now : ℕ) (sendOk : Bool) (s : WSState) :
    ReconnectOutcome :=
    if _h : s.reconnectCount < cfg.reconnectAttempts then
      match hc : connectOp { s with reconnectCount := s.reconnectCount + 1 }
          (connectResults s.reconnectCount) now sendOk with
      | ⟨true, st⟩ => reconnectGo cfg hasFallback connectResults now sendOk st
      | ⟨false, st⟩ => ⟨st, 0, false⟩
    else
      ⟨{ s with connState := .disconnected },
        if hasFallback then 1 else 0, false⟩
  termination_by cfg.reconnectAttempts - s.reconnectCount
  decreasing_by
    simp only [connectOp] at hc
    split at hc
    · simp at hc
    · split at hc
      · simp at hc
      · rw [ConnectOutcome.mk.injEq] at hc
        rw [← hc.2]
        simp
        omega

/-- `BaseWebSocketClient._reconnect()`: returns immediately when
`_should_reconnect` is false, otherwise sets state RECONNECTING and runs
the retry loop. -/
def reconnectOp (cfg : WSConfig) (hasFallback : Bool)
    (connectResults : ℕ → Bool) (now : ℕ) (sendOk : Bool) (s : WSState) :
    ReconnectOutcome :=
  if ¬ s.shouldReconnect then ⟨s, 0, false⟩
  else
    reconnectGo cfg hasFallback connectResults now sendOk
      { s with connState := .reconnecting }

/-! ## Concrete example states -/

/-- A subscription to the bare channel "trades" with no callback. -/
def subNoCallback : Subscription :=
  { channel := "trades", params := [], subscribedAt := 0, callback := none }

/-- A subscription to the bare channel "orderbook" with callback 7. -/
def subWithCallback : Subscription :=
  { channel := "orderbook", params := [], subscribedAt := 0, callback := some 7 }

/-- A connected client holding the two example subscriptions. -/
def wsConnectedTwo : WSState :=
  { connState := .connected
    wsOpen := true
    subscriptions := [("trades", subNoCallback), ("orderbook", subWithCallback)]
    shouldReconnect := true
    reconnectCount := 0
    queue := [] }

/-- A connected client with an empty registry. -/
def wsConnectedEmpty : WSState :=
  { connState := .connected
    wsOpen := true
    subscriptions := []
    shouldReconnect := true
    reconnectCount := 0
    queue := [] }

/-- A `RestConfig` with three retry attempts, initial delay 1s, maximum
delay 10s, multiplier 2 (the scenario from the spec). -/
def restCfg3 : RestConfig :=
  { retryAttempts := 3
    retryDelay := 1
    retryDelayMax := 10
    retryMultiplier := 2 }

/-- A `WSConfig` with five reconnect attempts, initial delay 1s, maximum
delay 60s, multiplier 2 (the defaults of `WebSocketConfig`). -/
def wsCfg5 : WSConfig :=
  { reconnectAttempts := 5
    reconnectDelay := 1
    reconnectDelayMax := 60
    reconnectMultiplier := 2 }

/-- Example parameter mapping in one insertion order. -/
def paramsAB : List (String × String) := [("a", "1"), ("b", "2")]

/-- The same parameter mapping in the other insertion order. -/
def paramsBA : List (String × String) := [("b", "2"), ("a", "1")]

end PredMkts

namespace PredMkts

/-! ## Theorems -/

/-- One `RateLimiter.acquire()` call preserves the token-count invariant. -/
theorem acquireStep_inv {s s' : RLState} {e : ℚ} (hs : RLinv s)
    (h : RateLimiter.acquireStep s e = some s') : RLinv s' := by
  obtain ⟨h0, h1⟩ := hs
  unfold RateLimiter.acquireStep at h
  by_cases hi : s.interval = 0
  · simp [hi] at h
  · simp only [hi, if_false] at h
    by_cases hlt : min s.rate (s.tokens + e * (s.rate / s.interval)) < 1
    · by_cases hr : s.rate = 0
      · simp [hlt, hr] at h
      · simp only [hlt, if_true, hr, if_false] at h
        obtain rfl : ({ s with tokens := 0 } : RLState) = s' := by
          simpa using h
        exact ⟨le_refl 0, h0.trans h1⟩
    · simp only [hlt, if_false] at h
      obtain rfl :
          ({ s with tokens := min s.rate (s.tokens + e * (s.rate / s.interval)) - 1 } :
            RLState) = s' := by
        simpa using h
      refine ⟨by simpa using le_of_not_lt hlt, ?_⟩
      have hmin : min s.rate (s.tokens + e * (s.rate / s.interval)) ≤ s.rate :=
        min_le_left _ _
      simp only
      linarith

/-- Any sequence of `RateLimiter.acquire()` calls preserves the invariant. -/
theorem runRL_inv :
    ∀ (es : List ℚ) (s s' : RLState), RLinv s → runRL s es = some s' →
      RLinv s'
  | [], s, s', hs, h => by
      unfold runRL at h
      obtain rfl : s = s' := by simpa using h
      exact hs
  | e :: es, s, s', hs, h => by
      unfold runRL at h
      cases hstep : RateLimiter.acquireStep s e with
      | none => rw [hstep] at h; simp at h
      | some s1 =>
          rw [hstep] at h
          simp only [Option.some_bind] at h
          exact runRL_inv es s1 s' (acquireStep_inv hs hstep) h

/-- One iteration of the `TokenBucketRateLimiter.acquire` loop preserves
the invariant, given a nonnegative refill rate and elapsed time. -/
theorem acquireIter_inv {s s' : TBState} {e : ℚ} {n : ℕ} (hs : TBinv s)
    (hr : 0 ≤ s.rate) (he : 0 ≤ e)
    (h : TokenBucketRateLimiter.acquireIter s e n = some s') : TBinv s' := by
  obtain ⟨h0, h1⟩ := hs
  unfold TokenBucketRateLimiter.acquireIter at h
  have ht0 : 0 ≤ min s.burst (s.tokens + e * s.rate) := by
    have : 0 ≤ s.tokens + e * s.rate := by positivity
    have hb : 0 ≤ s.burst := h0.trans h1
    exact le_min hb this
  have ht1 : min s.burst (s.tokens + e * s.rate) ≤ s.burst := min_le_left _ _
  by_cases hge : (n : ℚ) ≤ min s.burst (s.tokens + e * s.rate)
  · simp only [hge, if_true] at h
    obtain rfl :
        ({ s with tokens := min s.burst (s.tokens + e * s.rate) - n } :
          TBState) = s' := by simpa using h
    constructor
    · simp only
      linarith
    · simp only
      have : (0 : ℚ) ≤ n := by positivity
      linarith
  · simp only [hge, if_false] at h
    by_cases hz : s.rate = 0
    · simp [hz] at h
    · simp only [hz, if_false] at h
      obtain rfl :
          ({ s with tokens := min s.burst (s.tokens + e * s.rate) } :
            TBState) = s' := by simpa using h
      exact ⟨ht0, ht1⟩

/-- A `try_acquire` call preserves the invariant. -/
theorem tryAcquire_inv {s : TBState} {e : ℚ} {n : ℕ} (hs : TBinv s)
    (hr : 0 ≤ s.rate) (he : 0 ≤ e) :
    TBinv (TokenBucketRateLimiter.tryAcquire s e n).2 := by
  obtain ⟨h0, h1⟩ := hs
  unfold TokenBucketRateLimiter.tryAcquire
  have ht0 : 0 ≤ min s.burst (s.tokens + e * s.rate) := by
    have : 0 ≤ s.tokens + e * s.rate := by positivity
    have hb : 0 ≤ s.burst := h0.trans h1
    exact le_min hb this
  have ht1 : min s.burst (s.tokens + e * s.rate) ≤ s.burst := min_le_left _ _
  by_cases hge : (n : ℚ) ≤ min s.burst (s.tokens + e * s.rate)
  · simp only [hge, if_true]
    constructor
    · simp only
      linarith
    · simp only
      have : (0 : ℚ) ≤ n := by positivity
      linarith
  · simp only [hge, if_false]
    exact ⟨ht0, ht1⟩

/-- Any sequence of token-bucket operations preserves the invariant. -/
theorem runTB_inv :
    ∀ (ops : List TBOp) (t t' : TBState), TBinv t → 0 ≤ t.rate →
      (∀ op ∈ ops, 0 ≤ op.elapsed) → runTB t ops = some t' → TBinv t'
  | [], t, t', ht, _, _, h => by
      unfold runTB at h
      obtain rfl : t = t' := by simpa using h
      exact ht
  | .acq e n :: ops, t, t', ht, hr, hel, h => by
      unfold runTB at h
      cases hstep : TokenBucketRateLimiter.acquireIter t e n with
      | none => rw [hstep] at h; simp at h
      | some t1 =>
          rw [hstep] at h
          simp only [Option.some_bind] at h
          have he : 0 ≤ e := hel (.acq e n) (List.mem_cons_self _ _)
          have hr1 : 0 ≤ t1.rate := by
            have : t1.rate = t.rate := by
              unfold TokenBucketRateLimiter.acquireIter at hstep
              split at hstep
              · obtain rfl : _ = t1 := by simpa using hstep
                rfl
              · split at hstep
                · simp at hstep
                · obtain rfl : _ = t1 := by simpa using hstep
                  rfl
            rw [this]; exact hr
          exact runTB_inv ops t1 t' (acquireIter_inv ht hr he hstep) hr1
            (fun op hop => hel op (List.mem_cons_of_mem _ hop)) h
  | .tryA e n :: ops, t, t', ht, hr, hel, h => by
      unfold runTB at h
      have he : 0 ≤ e := hel (.tryA e n) (List.mem_cons_self _ _)
      have hr1 : 0 ≤ (TokenBucketRateLimiter.tryAcquire t e n).2.rate := by
        have : (TokenBucketRateLimiter.tryAcquire t e n).2.rate = t.rate := by
          unfold TokenBucketRateLimiter.tryAcquire
          split <;> rfl
        rw [this]; exact hr
      exact runTB_inv ops _ t' (tryAcquire_inv ht hr he) hr1
        (fun op hop => hel op (List.mem_cons_of_mem _ hop)) h

/-- C3: for every rate limiter instance and every sequence of `acquire()`
and `try_acquire()` calls at arbitrary (monotone) times, the stored token
count satisfies `0 ≤ tokens ≤ capacity` throughout: refill is capped at
the capacity and consumption never drives the count negative.  This holds
for both `RateLimiter` (capacity `rate`) and `TokenBucketRateLimiter`
(capacity `burst`). -/
theorem rate_limiter_token_count_invariant
    (s : RLState) (es : List ℚ) (s' : RLState)
    (hs : RLinv s) (hrun : runRL s es = some s')
    (t : TBState) (ops : List TBOp) (t' : TBState)
    (ht : TBinv t) (hrate : 0 ≤ t.rate)
    (hel : ∀ op ∈ ops, 0 ≤ op.elapsed)
    (hrunT : runTB t ops = some t') :
    RLinv s' ∧ TBinv t' :=
  ⟨runRL_inv es s s' hs hrun, runTB_inv ops t t' ht hrate hel hrunT⟩

/-- Witness for C3 at concrete inputs: a `RateLimiter(5, 1)` after two
acquisitions and a `TokenBucketRateLimiter(2, 3)` after one acquire-loop
iteration and one `try_acquire`. -/
theorem rate_limiter_token_count_invariant_witness :
    RLinv { rate := 5, interval := 1, tokens := 4 } ∧
    TBinv { rate := 2, burst := 3, tokens := 1 } :=
  rate_limiter_token_count_invariant
    (RateLimiter.init 5 1) [0, 1] { rate := 5, interval := 1, tokens := 4 }
    (by constructor <;> norm_num [RateLimiter.init, RLinv])
    (by norm_num [runRL, RateLimiter.acquireStep, RateLimiter.init, min_def])
    (TokenBucketRateLimiter.init 2 (some 3)) [.acq 0 1, .tryA 1 2]
    { rate := 2, burst := 3, tokens := 1 }
    (by constructor <;> norm_num [TokenBucketRateLimiter.init, TBinv, ratTrunc])
    (by norm_num [TokenBucketRateLimiter.init, ratTrunc])
    (by intro op hop; fin_cases hop <;> norm_num [TBOp.elapsed])
    (by norm_num [runTB, TokenBucketRateLimiter.acquireIter,
          TokenBucketRateLimiter.tryAcquire, TokenBucketRateLimiter.init,
          ratTrunc, min_def])

/-- C8: constructing a rate limiter with `rate = 0` is not rejected: both
constructors return a limiter state without raising, and a later
`acquire()` on it hits a `ZeroDivisionError` (modelled as `none`). -/
theorem rate_zero_construction_accepted :
    RateLimiter.init 0 1 = { rate := 0, interval := 1, tokens := 0 } ∧
    RateLimiter.acquireStep (RateLimiter.init 0 1) 0 = none ∧
    TokenBucketRateLimiter.init 0 none =
      { rate := 0, burst := 0, tokens := 0 } ∧
    TokenBucketRateLimiter.acquireIter (TokenBucketRateLimiter.init 0 none)
      0 1 = none := by
  refine ⟨rfl, ?_, ?_, ?_⟩
  · norm_num [RateLimiter.acquireStep, RateLimiter.init, min_def]
  · norm_num [TokenBucketRateLimiter.init, ratTrunc]
  · norm_num [TokenBucketRateLimiter.acquireIter, TokenBucketRateLimiter.init,
      ratTrunc, min_def]

/-- A transient attempt outcome falls through to the backoff, remembering
the corresponding error as `last_error`. -/
theorem attemptStep_transient {a : Attempt} (h : isTransient a = true) :
    attemptStep a = .remember (rememberedOf a) := by
  cases a with
  | response s cls =>
      have h5 : 500 ≤ s := by simpa [isTransient] using h
      have h4 : ¬ s < 400 := by omega
      have h5' : ¬ s < 500 := by omega
      cases cls with
      | auth => simp [attemptStep, rememberedOf, h4, h5']
      | rateLimit => simp [attemptStep, rememberedOf, h4, h5']
      | other => simp [attemptStep, rememberedOf, h4, h5']
  | connError => rfl
  | timeoutErr => rfl
  | rateLimitExc => simp [isTransient] at h
  | otherExc => simp [isTransient] at h

/-- Behaviour of the retry loop from any point on when every remaining
attempt fails transiently. -/
theorem requestGo_transient (cfg : RestConfig) (outcomes : ℕ → Attempt)
    (htr : ∀ i, i < cfg.retryAttempts → isTransient (outcomes i) = true) :
    ∀ (fuel attempt : ℕ) (le0 : Option ReqError) (sl : List ℚ),
      fuel + attempt = cfg.retryAttempts →
      (requestGo cfg outcomes fuel attempt le0 sl).attempts
          = cfg.retryAttempts ∧
      (requestGo cfg outcomes fuel attempt le0 sl).sleeps.length
          = sl.length + (cfg.retryAttempts - 1 - attempt) ∧
      (requestGo cfg outcomes fuel attempt le0 sl).outcome =
        Except.error (if fuel = 0 then le0.getD ReqError.genericNetwork
          else rememberedOf (outcomes (cfg.retryAttempts - 1))) := by
  intro fuel
  induction fuel with
  | zero =>
      intro attempt le0 sl hsum
      simp only [requestGo]
      refine ⟨by omega, by omega, by norm_num⟩
  | succ fuel ih =>
      intro attempt le0 sl hsum
      have hlt : attempt < cfg.retryAttempts := by omega
      have hstep := attemptStep_transient (htr attempt hlt)
      simp only [requestGo, hstep]
      obtain ⟨ih1, ih2, ih3⟩ := ih (attempt + 1)
        (some (rememberedOf (outcomes attempt)))
        (if attempt < cfg.retryAttempts - 1 then
          sl ++ [backoffDelay cfg attempt] else sl) (by omega)
      refine ⟨ih1, ?_, ?_⟩
      · rw [ih2]
        by_cases hc : attempt < cfg.retryAttempts - 1
        · simp only [hc, if_true, List.length_append, List.length_cons,
            List.length_nil]
          omega
        · simp only [hc, if_false]
          omega
      · rw [ih3]
        by_cases hf : fuel = 0
        · subst hf
          have ha : attempt = cfg.retryAttempts - 1 := by omega
          simp [ha]
        · simp [hf]

/-- C1: when every physical attempt fails transiently (HTTP 5xx,
connection failure, or timeout), `request()` performs exactly
`retry_attempts` physical attempts, sleeps between consecutive attempts
but not after the last, and then raises the last remembered transient
error — or the generic `NetworkError("Request failed")` when no attempt
ran and no error was captured. -/
theorem request_transient_retries_exhaust (cfg : RestConfig)
    (outcomes : ℕ → Attempt)
    (htr : ∀ i, i < cfg.retryAttempts → isTransient (outcomes i) = true) :
    (requestRun cfg outcomes).attempts = cfg.retryAttempts ∧
    (requestRun cfg outcomes).sleeps.length = cfg.retryAttempts - 1 ∧
    (requestRun cfg outcomes).outcome =
      Except.error (if cfg.retryAttempts = 0 then ReqError.genericNetwork
        else rememberedOf (outcomes (cfg.retryAttempts - 1))) := by
  obtain ⟨h1, h2, h3⟩ := requestGo_transient cfg outcomes htr
    cfg.retryAttempts 0 none [] (by omega)
  unfold requestRun
  refine ⟨h1, by simpa using h2, by simpa using h3⟩

/-- Witness for C1: three connection failures against
`retry_attempts = 3` give three attempts, two backoff sleeps, and a raised
`ConnectionError`. -/
theorem request_transient_retries_exhaust_witness :
    (requestRun restCfg3 (fun _ => Attempt.connError)).attempts = 3 ∧
    (requestRun restCfg3 (fun _ => Attempt.connError)).sleeps.length = 2 ∧
    (requestRun restCfg3 (fun _ => Attempt.connError)).outcome =
      Except.error ReqError.connectionFailed := by
  have h := request_transient_retries_exhaust restCfg3
    (fun _ => Attempt.connError) (fun i _ => rfl)
  simpa [rememberedOf, restCfg3] using h

/-- C2 (code bug): an attempt that yields HTTP 401 classified as an
`AuthenticationError` is NOT raised immediately after one attempt.  The
`raise error` at rest_client.py line 272 sits inside the `try` block, so
the generic `except Exception` handler at line 296 captures it, stores
`NetworkError("Request failed: ...")` as `last_error`, and the loop
retries: with `retry_attempts = 3` the client performs 3 physical
attempts, sleeps twice, and finally raises the wrapping `NetworkError`
instead of the classified `AuthenticationError`. -/
theorem request_auth_error_retried_code_bug :
    (requestRun restCfg3
      (fun _ => Attempt.response 401 ErrCls.auth)).attempts = 3 ∧
    (requestRun restCfg3
      (fun _ => Attempt.response 401 ErrCls.auth)).sleeps.length = 2 ∧
    (requestRun restCfg3
      (fun _ => Attempt.response 401 ErrCls.auth)).outcome =
      Except.error (ReqError.wrappedNetwork 401 ErrCls.auth) := by
  exact ⟨rfl, rfl, rfl⟩

/-- The pair comparison is reflected by the lexicographic order. -/
theorem pairLe_iff (a b : String × String) :
    pairLe a b = true ↔ toLex a ≤ toLex b := by
  simp [pairLe]

/-- The pair comparison is transitive. -/
theorem pairLe_trans (a b c : String × String) (hab : pairLe a b = true)
    (hbc : pairLe b c = true) : pairLe a c = true := by
  rw [pairLe_iff] at hab hbc ⊢
  exact le_trans hab hbc

/-- The pair comparison is total. -/
theorem pairLe_total (a b : String × String) :
    (pairLe a b || pairLe b a) = true := by
  simp only [Bool.or_eq_true, pairLe_iff]
  exact le_total (toLex a) (toLex b)

/-- The pair comparison is antisymmetric. -/
theorem pairLe_antisymm (a b : String × String) (hab : pairLe a b = true)
    (hba : pairLe b a = true) : a = b := by
  rw [pairLe_iff] at hab hba
  exact toLex.injective (le_antisymm hab hba)

/-- Sorting parameter pairs is invariant under permutation of the input:
two insertion orders of the same mapping sort identically. -/
theorem mergeSort_pairLe_perm {l₁ l₂ : List (String × String)}
    (h : l₁.Perm l₂) : l₁.mergeSort pairLe = l₂.mergeSort pairLe := by
  haveI : IsAntisymm (String × String) (fun a b => pairLe a b = true) :=
    ⟨pairLe_antisymm⟩
  have s₁ := List.sorted_mergeSort pairLe_trans pairLe_total l₁
  have s₂ := List.sorted_mergeSort pairLe_trans pairLe_total l₂
  have hp : (l₁.mergeSort pairLe).Perm (l₂.mergeSort pairLe) :=
    (List.mergeSort_perm l₁ pairLe).trans
      (h.trans (List.mergeSort_perm l₂ pairLe).symm)
  exact List.eq_of_perm_of_sorted hp s₁ s₂

/-- The subscription key is invariant under permutation of the parameter
pairs. -/
theorem subscriptionKey_perm (c : String) {p₁ p₂ : List (String × String)}
    (h : p₁.Perm p₂) : subscriptionKey c p₁ = subscriptionKey c p₂ := by
  unfold subscriptionKey
  by_cases he : p₁ = []
  · subst he
    have : p₂ = [] := h.symm.eq_nil
    subst this
    rfl
  · have he₂ : p₂ ≠ [] := by
      intro e
      subst e
      exact he h.eq_nil
    have h1 : p₁.isEmpty = false := by simpa using he
    have h2 : p₂.isEmpty = false := by simpa using he₂
    simp only [h1, h2, Bool.false_eq_true, if_false]
    rw [mergeSort_pairLe_perm h]

/-- Looking up a key that an association list does not contain, after the
pair for that key is appended, finds the appended value. -/
theorem lookup_append_right {l : List (String × Subscription)} {k : String}
    (hl : l.lookup k = none) (v : Subscription) :
    (l ++ [(k, v)]).lookup k = some v := by
  induction l with
  | nil => simp [List.lookup]
  | cons a l ih =>
      obtain ⟨a₁, a₂⟩ := a
      by_cases hk : (k == a₁) = true
      · simp [List.lookup, hk] at hl
      · have hk' : (k == a₁) = false := by simpa using hk
        rw [List.cons_append]
        rw [List.lookup] at hl ⊢
        simp only [hk', Bool.false_eq_true, if_false] at hl ⊢
        exact ih hl

/-- Every key in an association list that a lookup misses differs from
the looked-up key. -/
theorem lookup_none_keys_ne {l : List (String × Subscription)} {k : String}
    (h : l.lookup k = none) : ∀ a ∈ l, a.1 ≠ k := by
  induction l with
  | nil => simp
  | cons a l ih =>
      obtain ⟨a₁, a₂⟩ := a
      by_cases hk : (k == a₁) = true
      · simp [List.lookup, hk] at h
      · have hk' : (k == a₁) = false := by simpa using hk
        rw [List.lookup] at h
        simp only [hk', Bool.false_eq_true, if_false] at h
        intro b hb
        rcases List.mem_cons.mp hb with rfl | hb'
        · simp only
          intro e
          rw [e] at hk'
          simp at hk'
        · exact ih h b hb'

/-- Evaluation of `subscribe` on a connected client whose registry already
holds the computed key: the duplicate check returns early. -/
theorem subscribe_already (s : WSState) (c : String)
    (p : List (String × String)) (cb : Option ℕ) (n : ℕ) (b : Bool)
    (hconn : wsIsConnected s = true)
    (hfound : (s.subscriptions.lookup (subscriptionKey c p)).isSome
      = true) :
    subscribe s c p cb n b = ⟨.alreadySubscribed, s, []⟩ := by
  unfold subscribe
  rw [if_neg (by simp [hconn]), if_pos hfound]

/-- Evaluation of `subscribe` on a connected client when the key is new
and the control-frame send succeeds: the subscription is stored at the
end of the registry. -/
theorem subscribe_stores (s : WSState) (c : String)
    (p : List (String × String)) (cb : Option ℕ) (n : ℕ)
    (hconn : wsIsConnected s = true)
    (hnone : s.subscriptions.lookup (subscriptionKey c p) = none) :
    subscribe s c p cb n true =
      ⟨.ok,
        { s with
          subscriptions := s.subscriptions ++
            [(subscriptionKey c p,
              { channel := c, params := p, subscribedAt := n,
                callback := cb })] },
        [(c, p)]⟩ := by
  unfold subscribe
  rw [if_neg (by simp [hconn]), if_neg (by simp [hnone]), if_pos rfl]

/-- Evaluation of `subscribe` on a connected client when the key is new
and the control-frame send fails: nothing is stored and the subscription
error propagates. -/
theorem subscribe_sendfail (s : WSState) (c : String)
    (p : List (String × String)) (cb : Option ℕ) (n : ℕ)
    (hconn : wsIsConnected s = true)
    (hnone : s.subscriptions.lookup (subscriptionKey c p) = none) :
    subscribe s c p cb n false = ⟨.errSubscription, s, []⟩ := by
  unfold subscribe
  rw [if_neg (by simp [hconn]), if_neg (by simp [hnone]),
    if_neg (by simp)]

/-- C4: on a connected client, a second `subscribe()` with the same
channel and a parameter mapping equal as a set of key-value pairs (any
insertion order) is an idempotent no-op: it sends no subscribe frame,
returns with the registry unchanged, and exactly one `Subscription` is
stored under the shared key. -/
theorem subscribe_idempotent_under_param_order (s : WSState) (c : String)
    (p₁ p₂ : List (String × String)) (cb₁ cb₂ : Option ℕ) (n₁ n₂ : ℕ)
    (hconn : wsIsConnected s = true) (hperm : p₁.Perm p₂)
    (habsent : (s.subscriptions.lookup (subscriptionKey c p₁)).isNone
      = true) :
    subscribe (subscribe s c p₁ cb₁ n₁ true).state c p₂ cb₂ n₂ true
      = ⟨.alreadySubscribed, (subscribe s c p₁ cb₁ n₁ true).state, []⟩ ∧
    ((subscribe s c p₁ cb₁ n₁ true).state.subscriptions.countP
        (fun e => e.1 == subscriptionKey c p₁)) = 1 := by
  have hkey : subscriptionKey c p₂ = subscriptionKey c p₁ :=
    (subscriptionKey_perm c hperm).symm
  have hnone : s.subscriptions.lookup (subscriptionKey c p₁) = none :=
    Option.isNone_iff_eq_none.mp habsent
  rw [subscribe_stores s c p₁ cb₁ n₁ hconn hnone]
  constructor
  · apply subscribe_already
    · simpa [wsIsConnected] using hconn
    · show (List.lookup (subscriptionKey c p₂) _).isSome = true
      rw [hkey]
      rw [show (List.lookup (subscriptionKey c p₁)
          (s.subscriptions ++
            [(subscriptionKey c p₁,
              { channel := c, params := p₁, subscribedAt := n₁,
                callback := cb₁ })])) = some
            { channel := c, params := p₁, subscribedAt := n₁,
              callback := cb₁ } from lookup_append_right hnone _]
      rfl
  · show List.countP _ (_ ++ _) = 1
    rw [List.countP_append]
    have hz : s.subscriptions.countP
        (fun e => e.1 == subscriptionKey c p₁) = 0 := by
      rw [List.countP_eq_zero]
      intro a ha
      simpa using lookup_none_keys_ne hnone a ha
    rw [hz]
    simp

/-- Witness for C4: subscribing twice to "orderbook" with the parameters
given in the two insertion orders stores exactly one subscription and the
second call is a no-op. -/
theorem subscribe_idempotent_under_param_order_witness :
    subscribe
        (subscribe wsConnectedEmpty "orderbook" paramsAB (some 7) 1
          true).state "orderbook" paramsBA none 2 true
      = ⟨.alreadySubscribed,
          (subscribe wsConnectedEmpty "orderbook" paramsAB (some 7) 1
            true).state, []⟩ ∧
    ((subscribe wsConnectedEmpty "orderbook" paramsAB (some 7) 1
        true).state.subscriptions.countP
        (fun e => e.1 == subscriptionKey "orderbook" paramsAB)) = 1 :=
  subscribe_idempotent_under_param_order wsConnectedEmpty "orderbook"
    paramsAB paramsBA (some 7) none 1 2 rfl
    (List.Perm.swap ("b", "2") ("a", "1") []) rfl

/-- C10: when the subscribe control frame fails to send on a connected
client, the registry is left unchanged, no frame is delivered, and a
`WebSocketSubscriptionError` is raised to the caller. -/
theorem subscribe_send_failure_leaves_registry (s : WSState) (c : String)
    (p : List (String × String)) (cb : Option ℕ) (n : ℕ)
    (hconn : wsIsConnected s = true)
    (habsent : (s.subscriptions.lookup (subscriptionKey c p)).isNone
      = true) :
    subscribe s c p cb n false = ⟨.errSubscription, s, []⟩ :=
  subscribe_sendfail s c p cb n hconn (Option.isNone_iff_eq_none.mp habsent)

/-- Witness for C10 at a concrete connected client. -/
theorem subscribe_send_failure_leaves_registry_witness :
    subscribe wsConnectedEmpty "trades" [] none 0 false
      = ⟨.errSubscription, wsConnectedEmpty, []⟩ :=
  subscribe_send_failure_leaves_registry wsConnectedEmpty "trades" [] none 0
    rfl rfl

/-- C5 counterexample: on a connected client subscribed to "trades", an
`unsubscribe("trades")` whose control-frame send fails RETAINS the
registry entry (the `del` statement sits after the send inside the same
`try`), so the registry does retain an entry after `unsubscribe` returns,
contrary to the claim. -/
theorem unsubscribe_send_failure_retains_entry_cex :
    ((unsubscribe wsConnectedTwo "trades" [] false).2.subscriptions.lookup
        "trades").isSome = true ∧
    (unsubscribe wsConnectedTwo "trades" [] false).1
      = UnsubResult.sendFailedLogged := by
  constructor
  · rfl
  · rfl

/-- Looking up a key in a list filtered to exclude that key finds
nothing. -/
theorem lookup_filter_not_key (l : List (String × Subscription))
    (k : String) :
    ((l.filter (fun kv => kv.1 ≠ k)).lookup k) = none := by
  induction l with
  | nil => rfl
  | cons a l ih =>
      obtain ⟨a₁, a₂⟩ := a
      rw [List.filter_cons]
      by_cases h : a₁ = k
      · rw [if_neg (by simp [h])]
        exact ih
      · rw [if_pos (by simp [h])]
        rw [List.lookup]
        have hk : (k == a₁) = false := by
          simp only [beq_eq_false_iff_ne]
          exact fun e => h e.symm
        simp only [hk, Bool.false_eq_true, if_false]
        exact ih

/-- C5 amended: `unsubscribe` removes the registry entry when the
control-frame send succeeds; when the send fails it raises nothing and
only logs, but the entry is retained (the state is unchanged). -/
theorem unsubscribe_send_behavior (s : WSState) (c : String)
    (p : List (String × String)) (hconn : wsIsConnected s = true)
    (hsub : (s.subscriptions.lookup (subscriptionKey c p)).isSome = true) :
    ((unsubscribe s c p true).2.subscriptions.lookup (subscriptionKey c p)
        = none) ∧
    (unsubscribe s c p true).1 = UnsubResult.ok ∧
    (unsubscribe s c p false).2 = s ∧
    (unsubscribe s c p false).1 = UnsubResult.sendFailedLogged := by
  have hnn : ¬ (s.subscriptions.lookup (subscriptionKey c p)).isNone
      = true := by
    rw [Option.isNone_iff_eq_none]
    intro e
    rw [e] at hsub
    simp at hsub
  have hok : unsubscribe s c p true =
      (.ok,
        { s with
          subscriptions := s.subscriptions.filter
            (fun kv => kv.1 ≠ subscriptionKey c p) }) := by
    unfold unsubscribe
    rw [if_neg (by simp [hconn]), if_neg hnn, if_pos rfl]
  have hfail : unsubscribe s c p false = (.sendFailedLogged, s) := by
    unfold unsubscribe
    rw [if_neg (by simp [hconn]), if_neg hnn, if_neg (by simp)]
  refine ⟨?_, ?_, ?_, ?_⟩
  · rw [hok]
    exact lookup_filter_not_key s.subscriptions (subscriptionKey c p)
  · rw [hok]
  · rw [hfail]
  · rw [hfail]

/-- Witness for the amended C5 at a concrete client subscribed to
"trades". -/
theorem unsubscribe_send_behavior_witness :
    ((unsubscribe wsConnectedTwo "trades" [] true).2.subscriptions.lookup
        (subscriptionKey "trades" []) = none) ∧
    (unsubscribe wsConnectedTwo "trades" [] true).1 = UnsubResult.ok ∧
    (unsubscribe wsConnectedTwo "trades" [] false).2 = wsConnectedTwo ∧
    (unsubscribe wsConnectedTwo "trades" [] false).1
      = UnsubResult.sendFailedLogged :=
  unsubscribe_send_behavior wsConnectedTwo "trades" [] rfl rfl

/-- C6 counterexample: a non-heartbeat message whose extracted routing key
matches the stored subscription "trades" — whose callback is `None` — is
neither enqueued nor delivered anywhere: the receive loop silently drops
it (the `else` of the routing conditional belongs to the outer `if`), so
the claim that such a message is enqueued onto the general queue fails. -/
theorem routing_no_callback_not_enqueued_cex :
    (receiveStep wsConnectedTwo
        { heartbeat := false, channel := some "trades" }).1
      = RouteResult.discarded ∧
    (receiveStep wsConnectedTwo
        { heartbeat := false, channel := some "trades" }).2.queue = [] := by
  constructor
  · rfl
  · rfl

/-- C6 amended: full routing behaviour of the receive loop.  A heartbeat
response is never delivered to any callback, listener or the queue; a
message matching a subscription with a callback is delivered to that
callback; a message matching a subscription WITHOUT a callback is silently
dropped (not enqueued); every other message is enqueued onto the general
queue. -/
theorem receive_routing_behavior (s : WSState) (m : InMessage) :
    (m.heartbeat = true → receiveStep s m = (.heartbeatSkipped, s)) ∧
    (∀ ch sub cb, m.heartbeat = false → m.channel = some ch → ch ≠ "" →
      s.subscriptions.lookup ch = some sub → sub.callback = some cb →
      receiveStep s m = (.callbackInvoked cb, s)) ∧
    (∀ ch sub, m.heartbeat = false → m.channel = some ch → ch ≠ "" →
      s.subscriptions.lookup ch = some sub → sub.callback = none →
      receiveStep s m = (.discarded, s)) ∧
    (m.heartbeat = false →
      (∀ ch, m.channel = some ch →
        ch = "" ∨ s.subscriptions.lookup ch = none) →
      receiveStep s m = (.enqueued, { s with queue := s.queue ++ [m] })) := by
  refine ⟨?_, ?_, ?_, ?_⟩
  · intro hh
    unfold receiveStep
    rw [if_pos hh]
  · intro ch sub cb hh hch hne hlk hcb
    unfold receiveStep
    rw [if_neg (by simp [hh]), hch]
    simp only [hlk, hcb]
    rw [if_pos hne]
  · intro ch sub hh hch hne hlk hcb
    unfold receiveStep
    rw [if_neg (by simp [hh]), hch]
    simp only [hlk, hcb]
    rw [if_pos hne]
  · intro hh hmiss
    unfold receiveStep
    rw [if_neg (by simp [hh])]
    cases hch : m.channel with
    | none => rfl
    | some ch =>
        rcases hmiss ch hch with he | hlk
        · subst he
          simp
        · by_cases hne : ch ≠ ""
          · simp only [hlk]
            rw [if_pos hne]
          · dsimp only
            rw [if_neg hne]

/-- Witness for the amended C6: the four routing cases at concrete
messages against the two-subscription client. -/
theorem receive_routing_behavior_witness :
    receiveStep wsConnectedTwo { heartbeat := true, channel := some "x" }
      = (.heartbeatSkipped, wsConnectedTwo) ∧
    receiveStep wsConnectedTwo
        { heartbeat := false, channel := some "orderbook" }
      = (.callbackInvoked 7, wsConnectedTwo) ∧
    receiveStep wsConnectedTwo
        { heartbeat := false, channel := some "trades" }
      = (.discarded, wsConnectedTwo) ∧
    receiveStep wsConnectedTwo { heartbeat := false, channel := some "zz" }
      = (.enqueued,
          { wsConnectedTwo with
            queue := [{ heartbeat := false, channel := some "zz" }] }) := by
  refine ⟨?_, ?_, ?_, ?_⟩
  · exact (receive_routing_behavior wsConnectedTwo
      { heartbeat := true, channel := some "x" }).1 rfl
  · exact (receive_routing_behavior wsConnectedTwo
      { heartbeat := false, channel := some "orderbook" }).2.1 "orderbook"
      subWithCallback 7 rfl rfl (by simp) rfl rfl
  · exact (receive_routing_behavior wsConnectedTwo
      { heartbeat := false, channel := some "trades" }).2.2.1 "trades"
      subNoCallback rfl rfl (by simp) rfl rfl
  · exact (receive_routing_behavior wsConnectedTwo
      { heartbeat := false, channel := some "zz" }).2.2.2 rfl
      (by intro ch hch; right; cases hch; rfl)

/-- When every `connect()` attempt fails, the reconnect loop runs down its
attempt budget, ends with state DISCONNECTED, fires the fallback trigger
exactly once, and raises nothing. -/
theorem reconnectGo_all_fail (cfg : WSConfig) (connectResults : ℕ → Bool)
    (hfail : ∀ i, connectResults i = false) (now : ℕ) (sendOk : Bool) :
    ∀ (k : ℕ) (s : WSState),
      cfg.reconnectAttempts - s.reconnectCount = k →
      s.connState ≠ ConnState.connected →
      (reconnectGo cfg true connectResults now sendOk s).state.connState
          = ConnState.disconnected ∧
      (reconnectGo cfg true connectResults now sendOk s).fallbackCalls
          = 1 ∧
      (reconnectGo cfg true connectResults now sendOk s).raised = false := by
  intro k
  induction k with
  | zero =>
      intro s hk hcs
      have hge : ¬ s.reconnectCount < cfg.reconnectAttempts := by omega
      rw [reconnectGo, dif_neg hge]
      exact ⟨rfl, rfl, rfl⟩
  | succ k ih =>
      intro s hk hcs
      have hlt : s.reconnectCount < cfg.reconnectAttempts := by omega
      have hco : connectOp { s with reconnectCount := s.reconnectCount + 1 }
          (connectResults s.reconnectCount) now sendOk =
          ⟨true,
            { s with
              reconnectCount := s.reconnectCount + 1
              shouldReconnect := true
              connState := ConnState.disconnected }⟩ := by
        rw [hfail s.reconnectCount]
        unfold connectOp
        rw [if_neg (by simpa using hcs)]
        rfl
      rw [reconnectGo, dif_pos hlt]
      split
      next st hc' =>
        rw [hco] at hc'
        rw [ConnectOutcome.mk.injEq] at hc'
        obtain ⟨-, rfl⟩ := hc'
        refine ih _ ?_ ?_
        · simp only
          omega
        · simp
      next st hc' =>
        rw [hco] at hc'
        simp at hc'

/-- C7: when the reconnect loop runs (`_should_reconnect` is true) with a
configured fallback trigger and every connection attempt fails until the
attempt bound is reached, the connection state ends DISCONNECTED, the
fallback trigger is awaited exactly once, and no error is raised to any
caller. -/
theorem reconnect_exhaustion_fallback (cfg : WSConfig) (s : WSState)
    (connectResults : ℕ → Bool) (now : ℕ) (sendOk : Bool)
    (hsr : s.shouldReconnect = true)
    (hfail : ∀ i, connectResults i = false) :
    (reconnectOp cfg true connectResults now sendOk s).state.connState
        = ConnState.disconnected ∧
    (reconnectOp cfg true connectResults now sendOk s).fallbackCalls = 1 ∧
    (reconnectOp cfg true connectResults now sendOk s).raised = false := by
  unfold reconnectOp
  rw [if_neg (by simp [hsr])]
  exact reconnectGo_all_fail cfg connectResults hfail now sendOk _
    { s with connState := ConnState.reconnecting } rfl (by simp)

/-- Witness for C7: five failing reconnect attempts against
`reconnect_attempts = 5` leave the client DISCONNECTED with exactly one
fallback invocation and nothing raised. -/
theorem reconnect_exhaustion_fallback_witness :
    (reconnectOp wsCfg5 true (fun _ => false) 0 true
        wsConnectedTwo).state.connState = ConnState.disconnected ∧
    (reconnectOp wsCfg5 true (fun _ => false) 0 true
        wsConnectedTwo).fallbackCalls = 1 ∧
    (reconnectOp wsCfg5 true (fun _ => false) 0 true
        wsConnectedTwo).raised = false :=
  reconnect_exhaustion_fallback wsCfg5 wsConnectedTwo (fun _ => false) 0
    true rfl (fun _ => rfl)

/-- C9 counterexample: `disconnect()` sets the state to Closed, but a
later successful `connect()` transitions the machine out of Closed to
Connected — Closed is not terminal. -/
theorem closed_not_terminal_cex :
    (disconnect wsConnectedTwo).connState = ConnState.closed ∧
    (connectOp (disconnect wsConnectedTwo) true 1 true).state.connState
      = ConnState.connected := by
  constructor
  · rfl
  · rfl

/-- A `subscribe()` call never changes the connection state. -/
theorem subscribe_connState_eq (s : WSState) (c : String)
    (p : List (String × String)) (cb : Option ℕ) (n : ℕ) (b : Bool) :
    (subscribe s c p cb n b).state.connState = s.connState := by
  unfold subscribe
  repeat' split
  all_goals dsimp only
  all_goals repeat' split
  all_goals rfl

/-- Resubscribing every stored subscription never changes the connection
state. -/
theorem resubscribeAll_connState (s : WSState) (now : ℕ) (b : Bool) :
    (resubscribeAll s now b).connState = s.connState := by
  unfold resubscribeAll
  have hfold : ∀ (l : List Subscription) (st : WSState),
      (l.foldl
        (fun st sub =>
          (subscribe st sub.channel sub.params sub.callback now b).state)
        st).connState = st.connState := by
    intro l
    induction l with
    | nil => intro st; rfl
    | cons a l ih =>
        intro st
        rw [List.foldl_cons, ih, subscribe_connState_eq]
  exact (hfold _ _).trans rfl

/-- C9 amended: Closed, entered by `disconnect()` (which also clears
`_should_reconnect`), persists under every subsequent operation EXCEPT
`connect()`: subscribe and unsubscribe are rejected or no-ops that leave
the state unchanged, message handling never touches the connection state,
and the reconnect loop returns immediately; but a later successful
`connect()` does transition the machine out of Closed to Connected, so
Closed is not terminal. -/
theorem closed_persists_except_connect (s : WSState)
    (hc : s.connState = ConnState.closed) (hr : s.shouldReconnect = false) :
    (∀ c p cb n b, (subscribe s c p cb n b).state = s) ∧
    (∀ c p b, (unsubscribe s c p b).2 = s) ∧
    (∀ m, (receiveStep s m).2.connState = ConnState.closed) ∧
    (∀ cfg hf cr now b, reconnectOp cfg hf cr now b s = ⟨s, 0, false⟩) ∧
    (∀ now b, (connectOp s true now b).state.connState
        = ConnState.connected) := by
  have hnc : wsIsConnected s = false := by
    simp [wsIsConnected, hc]
  refine ⟨?_, ?_, ?_, ?_, ?_⟩
  · intro c p cb n b
    unfold subscribe
    rw [if_pos (by simp [hnc])]
  · intro c p b
    unfold unsubscribe
    rw [if_pos (by simp [hnc])]
  · intro m
    unfold receiveStep
    repeat' split
    all_goals simpa using hc
  · intro cfg hf cr now b
    unfold reconnectOp
    rw [if_pos (by simp [hr])]
  · intro now b
    unfold connectOp
    rw [if_neg (by simp [hc]), if_pos rfl]
    rw [resubscribeAll_connState]

/-- Witness for the amended C9 at the concrete closed client produced by
`disconnect()`. -/
theorem closed_persists_except_connect_witness :
    (subscribe (disconnect wsConnectedTwo) "x" [] none 0 true).state
      = disconnect wsConnectedTwo ∧
    (unsubscribe (disconnect wsConnectedTwo) "trades" [] true).2
      = disconnect wsConnectedTwo ∧
    (receiveStep (disconnect wsConnectedTwo)
        { heartbeat := false, channel := none }).2.connState
      = ConnState.closed ∧
    reconnectOp wsCfg5 true (fun _ => false) 0 true
        (disconnect wsConnectedTwo)
      = ⟨disconnect wsConnectedTwo, 0, false⟩ ∧
    (connectOp (disconnect wsConnectedTwo) true 0 true).state.connState
      = ConnState.connected := by
  have h := closed_persists_except_connect (disconnect wsConnectedTwo) rfl
    rfl
  exact ⟨h.1 "x" [] none 0 true, h.2.1 "trades" [] true,
    h.2.2.1 { heartbeat := false, channel := none },
    h.2.2.2.1 wsCfg5 true (fun _ => false) 0 true, h.2.2.2.2 0 true⟩

end PredMkts
